import Mathlib

/-!
# Verification of the AuraCast ensemble / optimistic-update core

Shallow embedding of the conflict-resolution and ensemble-prediction logic of
the AuraCast dashboard:

* `OptimisticUpdateManager` from `src/lib/mockApi.ts` (optimistic update
  ledger, conflict creation and conflict resolution);
* `EnsemblePredictionEngine.computeEnsemblePrediction` and the per-model
  fallback of `EnsemblePredictionEngine.predict` from the ML engine module;
* `MLWorkerEngine.createFallbackResult` from the ML worker module;
* `detectAnomaliesInData` from `convex/mlInference.ts`.

JS `Map`s are modelled as association lists with `Map.set` / `Map.delete` /
`Map.get` counterparts; JS object payloads are association lists from field
names to integers; JS numbers are modelled as exact reals (rationals where no
square root occurs).  Fresh identifiers and timestamps, produced in the source
by `Date.now()` and `Math.random()`, are passed in as explicit parameters.
-/

namespace AuraCast

/-! ## JS objects and Map operations -/

/-- A JS object payload, modelled as an association list from field names to
integer values (the payloads exercised by the conflict-resolution code are
plain data records). -/
abbrev Obj := List (String × Int)

/-- `obj[k]`: first binding of field `k`, if any (JS objects have unique keys;
lookup returns the binding). -/
def getField (k : String) : Obj → Option Int
  | [] => none
  | (k', v) :: rest => if k' = k then some v else getField k rest

/-- `Map.get(k)` on an association-list model of a JS `Map`. -/
def getEntry {α : Type} (k : String) : List (String × α) → Option α
  | [] => none
  | (k', v) :: rest => if k' = k then some v else getEntry k rest

/-- `Map.set(k, v)`: replace the binding of `k` in place if present, else
append a new binding (JS `Map` keeps insertion order). -/
def setEntry {α : Type} (k : String) (v : α) : List (String × α) → List (String × α)
  | [] => [(k, v)]
  | (k', v') :: rest => if k' = k then (k, v) :: rest else (k', v') :: setEntry k v rest

/-- `Map.delete(k)`: remove the binding of `k` (a JS `Map` holds at most one). -/
def delEntry {α : Type} (k : String) : List (String × α) → List (String × α)
  | [] => []
  | (k', v') :: rest => if k' = k then rest else (k', v') :: delEntry k rest

/-- The JS spread `{...remote, ...local}`: remote's fields in order, with
values overridden by `local` where `local` binds the same key, followed by the
fields of `local` whose keys do not occur in `remote`. -/
def spreadMerge (remote localObj : Obj) : Obj :=
  (remote.map fun kv => ((getField kv.1 localObj).elim kv fun v => (kv.1, v)))
    ++ localObj.filter fun kv => (getField kv.1 remote).isNone

/-! ## Data model of `mockApi.ts` -/

/-- `OptimisticUpdate.type : 'create' | 'update' | 'delete'`. -/
inductive UpdateType
  | create
  | update
  | delete
deriving DecidableEq, Repr

/-- `ConflictResolutionStrategy.strategy` union. -/
inductive StrategyKind
  | lastWriterWins
  | merge
  | manual
  | versionBased
deriving DecidableEq, Repr

/-- `interface ConflictResolutionStrategy` of `mockApi.ts`: the strategy tag,
an optional local version number and an optional custom merge function. -/
structure ConflictResolutionStrategy where
  strategy : StrategyKind
  version : Option Int := none
  mergeFunction : Option (Obj → Obj → Obj) := none

/-- `interface OptimisticUpdate` of `mockApi.ts`. -/
structure OptimisticUpdate where
  id : String
  type : UpdateType
  collection : String
  data : Obj
  previousData : Option Obj := none
  timestamp : Int
  userId : String
  conflictResolution : Option ConflictResolutionStrategy := none

/-- `Conflict.resolution : 'pending' | 'resolved' | 'manual'`. -/
inductive Resolution
  | pending
  | resolved
  | manual
deriving DecidableEq, Repr

/-- `interface Conflict` of `mockApi.ts`. -/
structure Conflict where
  id : String
  localUpdate : OptimisticUpdate
  remoteData : Obj
  resolution : Resolution
  timestamp : Int

/-- State of an `OptimisticUpdateManager` instance.  `updates` and `conflicts`
are the two private `Map`s.  `notifyCount` and `conflictNotifyCount` count
calls of `notifySubscribers()` / `notifyConflictSubscribers()` (observers are
invoked synchronously once per such call).  `applied` logs the
`(collection, resolvedData)` pairs handed to `applyResolvedData`. -/
structure ManagerState where
  updates : List (String × OptimisticUpdate)
  conflicts : List (String × Conflict)
  notifyCount : Nat
  conflictNotifyCount : Nat
  applied : List (String × Obj)

/-- A freshly constructed `OptimisticUpdateManager`. -/
def initState : ManagerState :=
  { updates := [], conflicts := [], notifyCount := 0, conflictNotifyCount := 0, applied := [] }

/-! ## Operations of `OptimisticUpdateManager` -/

/-- `applyUpdate(update)`: store the update under a fresh id with the current
timestamp (both passed in, standing for `Date.now()` / `Math.random()`),
notify subscribers, return the id. -/
def applyUpdate (s : ManagerState) (updateId : String) (now : Int)
    (upd : OptimisticUpdate) : ManagerState × String :=
  let fullUpdate := { upd with id := updateId, timestamp := now }
  ({ s with
      updates := setEntry updateId fullUpdate s.updates,
      notifyCount := s.notifyCount + 1 },
   updateId)

/-- Tail of `resolveConflict` after the `switch` computed `resolvedData`:
mark the conflict resolved, apply the resolved data, delete the conflict and
the paired ledger entry, notify both subscriber sets. -/
def finishResolve (s : ManagerState) (conflictId : String) (conflict : Conflict)
    (resolvedData : Obj) : ManagerState :=
  { s with
      applied := s.applied ++ [(conflict.localUpdate.collection, resolvedData)],
      conflicts := delEntry conflictId s.conflicts,
      updates := delEntry conflict.localUpdate.id s.updates,
      conflictNotifyCount := s.conflictNotifyCount + 1,
      notifyCount := s.notifyCount + 1 }

/-- `resolveConflict(conflictId, resolution)`: no-op when the conflict id is
absent; otherwise compute `resolvedData` by the chosen strategy (`manual`
keeps the conflict, marked `'manual'`, and only notifies conflict
subscribers), then delete the conflict and its ledger entry. -/
def resolveConflict (s : ManagerState) (conflictId : String)
    (resolution : ConflictResolutionStrategy) : ManagerState :=
  match getEntry conflictId s.conflicts with
  | none => s
  | some conflict =>
    match resolution.strategy with
    | StrategyKind.manual =>
        { s with
            conflicts := setEntry conflictId { conflict with resolution := Resolution.manual }
              s.conflicts,
            conflictNotifyCount := s.conflictNotifyCount + 1 }
    | StrategyKind.lastWriterWins =>
        finishResolve s conflictId conflict conflict.localUpdate.data
    | StrategyKind.merge =>
        finishResolve s conflictId conflict
          (match resolution.mergeFunction with
           | some f => f conflict.localUpdate.data conflict.remoteData
           | none => spreadMerge conflict.remoteData conflict.localUpdate.data)
    | StrategyKind.versionBased =>
        -- `resolution.version || 0` and `conflict.remoteData.version || 0`
        finishResolve s conflictId conflict
          (if resolution.version.getD 0 > (getField "version" conflict.remoteData).getD 0
           then conflict.localUpdate.data
           else conflict.remoteData)

/-- `handleConflict(update, serverData)`: record a fresh `Conflict` (id and
timestamp passed in), notify conflict subscribers, and auto-resolve when the
update names a resolution strategy.  Note: the update is not removed from the
pending map here. -/
def handleConflict (s : ManagerState) (conflictId : String) (now : Int)
    (update : OptimisticUpdate) (serverData : Obj) : ManagerState :=
  let conflict : Conflict :=
    { id := conflictId, localUpdate := update, remoteData := serverData,
      resolution := Resolution.pending, timestamp := now }
  let s1 := { s with
      conflicts := setEntry conflictId conflict s.conflicts,
      conflictNotifyCount := s.conflictNotifyCount + 1 }
  match update.conflictResolution with
  | some strat => resolveConflict s1 conflictId strat
  | none => s1

/-- `resolveUpdate(updateId, success, serverData?)`: no-op on an unknown id;
on success delete the ledger entry; on failure with server data create a
conflict via `handleConflict`; on failure without server data delete the
entry.  Every non-trivial path ends with `notifySubscribers()` (the conflict
id and timestamp a conflict would use are passed in). -/
def resolveUpdate (s : ManagerState) (updateId : String) (success : Bool)
    (serverData : Option Obj) (conflictId : String) (now : Int) : ManagerState :=
  match getEntry updateId s.updates with
  | none => s
  | some update =>
    let s1 :=
      if success then
        { s with updates := delEntry updateId s.updates }
      else
        match serverData with
        | some d => handleConflict s conflictId now update d
        | none => { s with updates := delEntry updateId s.updates }
    { s1 with notifyCount := s1.notifyCount + 1 }

/-- One externally triggered call on the manager. -/
inductive ManagerOp
  | apply (updateId : String) (now : Int) (upd : OptimisticUpdate)
  | resolve (updateId : String) (success : Bool) (serverData : Option Obj)
      (conflictId : String) (now : Int)
  | resolveConf (conflictId : String) (resolution : ConflictResolutionStrategy)

/-- Execute one call. -/
def execOp (s : ManagerState) : ManagerOp → ManagerState
  | ManagerOp.apply updateId now upd => (applyUpdate s updateId now upd).1
  | ManagerOp.resolve updateId success serverData conflictId now =>
      resolveUpdate s updateId success serverData conflictId now
  | ManagerOp.resolveConf conflictId resolution => resolveConflict s conflictId resolution

/-- Execute a call sequence from a given state. -/
def execOps (s : ManagerState) (ops : List ManagerOp) : ManagerState :=
  ops.foldl execOp s

/-! ## The ensemble combiner (`EnsemblePredictionEngine.computeEnsemblePrediction`)

JS floating-point numbers are modelled as exact reals.  `Math.sqrt` is
`Real.sqrt`, so these definitions are `noncomputable`; concrete instances are
evaluated by `simp`/`norm_num`. -/

open scoped Classical in
/-- One model's contribution as seen by `computeEnsemblePrediction`: the
`modelPredictions` and `modelUncertainties` maps are keyed by the same model
names, so the pair of maps is one list of (name, prediction, uncertainty)
records. -/
structure ModelPrediction where
  name : String
  prediction : ℝ
  uncertainty : ℝ

/-- `modelUncertainties[name] || 25`: a missing entry falls back to 25, and —
JS `||` treating `0` as falsy — so does a reported uncertainty of exactly 0. -/
noncomputable def effectiveUncertainty (u : ℝ) : ℝ :=
  if u = 0 then 25 else u

/-- `const weight = 1 / (1 + uncertainty / 50)`. -/
noncomputable def weightOf (u : ℝ) : ℝ := 1 / (1 + u / 50)

/-- The loop accumulating `weightedSum += prediction * weight`. -/
noncomputable def weightedSum (ms : List ModelPrediction) : ℝ :=
  (ms.map fun m => m.prediction * weightOf (effectiveUncertainty m.uncertainty)).sum

/-- The loop accumulating `totalWeight += weight`. -/
noncomputable def totalWeight (ms : List ModelPrediction) : ℝ :=
  (ms.map fun m => weightOf (effectiveUncertainty m.uncertainty)).sum

/-- `const ensemblePrediction = weightedSum / totalWeight`. -/
noncomputable def ensemblePrediction (ms : List ModelPrediction) : ℝ :=
  weightedSum ms / totalWeight ms

/-- `individualVariances` averaged: squared deviations of the `predictions`
array (the same values as the map entries) from the ensemble mean, divided by
the count. -/
noncomputable def meanVariance (ms : List ModelPrediction) : ℝ :=
  (ms.map fun m => (m.prediction - ensemblePrediction ms) ^ 2).sum / ms.length

/-- `const ensembleUncertainty = Math.sqrt(meanVariance)`. -/
noncomputable def ensembleUncertainty (ms : List ModelPrediction) : ℝ :=
  Real.sqrt (meanVariance ms)

/-- `Math.max(...predictions.map(p => Math.abs(p - ensemblePrediction)))`.
The fold starts from 0, which is only taken on the empty list (where JS
`Math.max()` is `-Infinity`); all elements are absolute values, so on
non-empty input this is their maximum. -/
noncomputable def maxDeviation (ms : List ModelPrediction) : ℝ :=
  (ms.map fun m => |m.prediction - ensemblePrediction ms|).foldr max 0

/-- `const agreementFactor = Math.max(0, 1 - maxDeviation / 100)`. -/
noncomputable def agreementFactor (ms : List ModelPrediction) : ℝ :=
  max 0 (1 - maxDeviation ms / 100)

/-- `Math.max(0.1, Math.min(0.95, agreementFactor * (1 - ensembleUncertainty / 100)))`. -/
noncomputable def confidence (ms : List ModelPrediction) : ℝ :=
  max 0.1 (min 0.95 (agreementFactor ms * (1 - ensembleUncertainty ms / 100)))

/-- The combiner's return record. -/
structure EnsembleResult where
  prediction : ℝ
  confidence : ℝ
  uncertainty : ℝ
  confidenceInterval : ℝ × ℝ

/-- `EnsemblePredictionEngine.computeEnsemblePrediction`: the uncertainty-
weighted mean, the agreement-based confidence, the RMS ensemble uncertainty,
and the 95% interval `[max(0, mean - 1.96·u), mean + 1.96·u]`. -/
noncomputable def computeEnsemblePrediction (ms : List ModelPrediction) : EnsembleResult :=
  { prediction := ensemblePrediction ms,
    confidence := confidence ms,
    uncertainty := ensembleUncertainty ms,
    confidenceInterval :=
      (max 0 (ensemblePrediction ms - 1.96 * ensembleUncertainty ms),
       ensemblePrediction ms + 1.96 * ensembleUncertainty ms) }

/-- The error the spec assigns to the combiner.  No `throw` occurs anywhere in
`computeEnsemblePrediction` (nor does the string `InvalidInput` occur in the
source), so the call surface below always returns `Except.ok`. -/
inductive EnsembleError
  | invalidInput
deriving DecidableEq, Repr

/-- Calling the combiner: the source has no failure path, so every call —
including on the empty list, where the JS arithmetic yields `NaN` fields —
returns normally. -/
noncomputable def combine (ms : List ModelPrediction) : Except EnsembleError EnsembleResult :=
  Except.ok (computeEnsemblePrediction ms)

/-- The weighted mean as §4.1 of the spec words it: weight exactly
`1 / (1 + uncertainty / 50)` of the reported uncertainty, with no fallback.
Written from the spec for comparison with `ensemblePrediction`. -/
noncomputable def specWeightedMean (ms : List ModelPrediction) : ℝ :=
  (ms.map fun m => m.prediction * (1 / (1 + m.uncertainty / 50))).sum /
    (ms.map fun m => 1 / (1 + m.uncertainty / 50)).sum

/-! ## Per-model fallback in `EnsemblePredictionEngine.predict` -/

/-- The outcome of invoking one registered model inside `predict`'s loop:
`some (prediction, uncertainty)` when the model's prediction step returns,
`none` when it throws. -/
structure ModelOutcome where
  name : String
  outcome : Option (ℝ × ℝ)

/-- The loop of `predict` over `this.models`: a successful model contributes
its prediction and uncertainty; for a failed model the `catch` records
`modelPredictions[name] = input.currentAqi` and
`modelUncertainties[name] = 25`. -/
noncomputable def collectModelData (currentAqi : ℝ) (outcomes : List ModelOutcome) :
    List ModelPrediction :=
  outcomes.map fun o =>
    match o.outcome with
    | some pu => { name := o.name, prediction := pu.1, uncertainty := pu.2 }
    | none => { name := o.name, prediction := currentAqi, uncertainty := 25 }

/-- `predict` after the model loop: feed the collected per-model data to the
combiner. -/
noncomputable def enginePredict (currentAqi : ℝ) (outcomes : List ModelOutcome) :
    Except EnsembleError EnsembleResult :=
  combine (collectModelData currentAqi outcomes)

/-- The attributes the `catch` block of `predict`'s model loop records for a
failed model, as (field, value) pairs: `prediction` (pushed and written to
`modelPredictions[name]`) and `uncertainty` (written to
`modelUncertainties[name]`).  No per-model confidence is recorded anywhere. -/
noncomputable def fallbackModelFields (currentAqi : ℝ) : List (String × ℝ) :=
  [("prediction", currentAqi), ("uncertainty", 25)]

/-- The fallback ModelPrediction as the spec words it:
`{prediction: input.currentValue, confidence: 0.5, uncertainty: 25}`.
Written from the spec for comparison with `fallbackModelFields`. -/
noncomputable def specFallbackModelFields (currentAqi : ℝ) : List (String × ℝ) :=
  [("prediction", currentAqi), ("confidence", 0.5), ("uncertainty", 25)]

/-- `MLWorkerEngine.createFallbackResult` (the ML worker module): the fallback
`PredictionResult` substituted when an entire `predict` call fails inside
`predictBatch`. -/
structure PredictionResult where
  predictedAqi : ℝ
  confidence : ℝ
  uncertainty : ℝ
  confidenceInterval : ℝ × ℝ

/-- `createFallbackResult(input)`. -/
noncomputable def createFallbackResult (currentAqi : ℝ) : PredictionResult :=
  { predictedAqi := currentAqi,
    confidence := 0.5,
    uncertainty := 25,
    confidenceInterval := (currentAqi - 25, currentAqi + 25) }

/-! ## `detectAnomaliesInData` (`convex/mlInference.ts`) -/

/-- `const mean = data.reduce((a, b) => a + b, 0) / data.length`. -/
noncomputable def seriesMean (data : List ℝ) : ℝ := data.sum / data.length

/-- `const std = Math.sqrt(Σ (val - mean)² / data.length)`. -/
noncomputable def seriesStd (data : List ℝ) : ℝ :=
  Real.sqrt ((data.map fun v => (v - seriesMean data) ^ 2).sum / data.length)

/-- One entry of the `anomalies` array. -/
structure AnomalyPoint where
  index : ℕ
  value : ℝ
  zScore : ℝ
  isAnomaly : Bool
  severity : String

open scoped Classical in
/-- `detectAnomaliesInData(data, sensitivity)`: per point,
`zScore = Math.abs((value - mean) / std)`, anomalous iff
`zScore > 3 - sensitivity`, severity `'high'` when additionally `zScore > 4`,
else `'medium'`; non-anomalous points get `'low'`. -/
noncomputable def detectAnomaliesInData (data : List ℝ) (sensitivity : ℝ) :
    List AnomalyPoint :=
  data.enum.map fun iv =>
    { index := iv.1,
      value := iv.2,
      zScore := |(iv.2 - seriesMean data) / seriesStd data|,
      isAnomaly := decide (|(iv.2 - seriesMean data) / seriesStd data| > 3 - sensitivity),
      severity :=
        if |(iv.2 - seriesMean data) / seriesStd data| > 3 - sensitivity then
          (if |(iv.2 - seriesMean data) / seriesStd data| > 4 then "high" else "medium")
        else "low" }

/-! ## Concrete data for instantiating the numeric theorems -/

/-- The §8 example predictions: lstm 100 (u=10), transformer 110 (u=20),
cnn 90 (u=5). -/
noncomputable def exampleModels : List ModelPrediction :=
  [{ name := "lstm", prediction := 100, uncertainty := 10 },
   { name := "transformer", prediction := 110, uncertainty := 20 },
   { name := "cnn", prediction := 90, uncertainty := 5 }]

/-- The anomaly record `detectAnomaliesInData [0] 0.8` produces for its
single point (a zero-std series). -/
noncomputable def samplePoint : AnomalyPoint :=
  { index := 0, value := 0,
    zScore := |((0 : ℝ) - seriesMean [0]) / seriesStd [0]|,
    isAnomaly := decide (|((0 : ℝ) - seriesMean [0]) / seriesStd [0]| > 3 - 0.8),
    severity :=
      if |((0 : ℝ) - seriesMean [0]) / seriesStd [0]| > 3 - 0.8 then
        (if |((0 : ℝ) - seriesMean [0]) / seriesStd [0]| > 4 then "high" else "medium")
      else "low" }

/-! ## Concrete data for instantiating the conflict theorems -/

/-- A concrete optimistic update (no auto-resolution strategy). -/
def sampleUpdate : OptimisticUpdate :=
  { id := "u1", type := UpdateType.update, collection := "zones",
    data := [("aqi", 70), ("version", 2)], timestamp := 0, userId := "alice" }

/-- A concrete conflict over `sampleUpdate`; the remote data carries version 1. -/
def sampleConflict : Conflict :=
  { id := "c1", localUpdate := sampleUpdate, remoteData := [("aqi", 55), ("version", 1)],
    resolution := Resolution.pending, timestamp := 1 }

/-- A second conflict whose remote data carries version 2. -/
def sampleConflict2 : Conflict :=
  { id := "c2", localUpdate := sampleUpdate, remoteData := [("aqi", 60), ("version", 2)],
    resolution := Resolution.pending, timestamp := 2 }

/-- A concrete manager state with one pending update and two conflicts. -/
def sampleState : ManagerState :=
  { updates := [("u1", sampleUpdate)],
    conflicts := [("c1", sampleConflict), ("c2", sampleConflict2)],
    notifyCount := 0, conflictNotifyCount := 0, applied := [] }

/-- The §8 scenario of the spec: `applyUpdate` on a fresh manager followed by
a failed `resolveUpdate` carrying server data. -/
def conflictScenarioState (u : OptimisticUpdate) (updateId : String) (t1 : Int)
    (d : Obj) (conflictId : String) (t2 : Int) : ManagerState :=
  resolveUpdate (applyUpdate initState updateId t1 u).1 updateId false (some d) conflictId t2

/-! ## Association-list lemmas (JS `Map` / object semantics) -/

theorem getEntry_setEntry_self {α : Type} (k : String) (v : α) (l : List (String × α)) :
    getEntry k (setEntry k v l) = some v := by
  induction l with
  | nil => simp [setEntry, getEntry]
  | cons hd tl ih =>
    by_cases h : hd.1 = k
    · simp [setEntry, getEntry, h]
    · simpa [setEntry, getEntry, h] using ih

theorem getEntry_eq_none_of_not_mem {α : Type} {k : String} {l : List (String × α)}
    (h : k ∉ l.map Prod.fst) : getEntry k l = none := by
  induction l with
  | nil => rfl
  | cons hd tl ih =>
    simp only [List.map_cons, List.mem_cons] at h
    push_neg at h
    have hne : ¬hd.1 = k := fun hh => h.1 hh.symm
    simp [getEntry, hne, ih h.2]

theorem keys_setEntry_subset {α : Type} {a k : String} {v : α} {l : List (String × α)}
    (h : a ∈ (setEntry k v l).map Prod.fst) : a = k ∨ a ∈ l.map Prod.fst := by
  induction l with
  | nil => simpa [setEntry] using h
  | cons hd tl ih =>
    by_cases hk : hd.1 = k
    · simp only [setEntry, hk, if_pos, List.map_cons, List.mem_cons] at h
      rcases h with h | h
      · exact Or.inl h
      · exact Or.inr (by simp [h])
    · simp only [setEntry, hk, if_neg, not_false_iff, List.map_cons, List.mem_cons] at h
      rcases h with h | h
      · exact Or.inr (by simp [h])
      · rcases ih h with h' | h'
        · exact Or.inl h'
        · exact Or.inr (by simp [h'])

theorem keys_nodup_setEntry {α : Type} {k : String} {v : α} {l : List (String × α)}
    (h : (l.map Prod.fst).Nodup) : ((setEntry k v l).map Prod.fst).Nodup := by
  induction l with
  | nil => simp [setEntry]
  | cons hd tl ih =>
    simp only [List.map_cons, List.nodup_cons] at h
    by_cases hk : hd.1 = k
    · simp only [setEntry, hk, if_pos, List.map_cons, List.nodup_cons]
      exact ⟨hk ▸ h.1, h.2⟩
    · simp only [setEntry, hk, if_neg, not_false_iff, List.map_cons, List.nodup_cons]
      refine ⟨fun hmem => ?_, ih h.2⟩
      rcases keys_setEntry_subset hmem with h' | h'
      · exact hk h'
      · exact h.1 h'

theorem getEntry_delEntry_self {α : Type} {k : String} {l : List (String × α)}
    (h : (l.map Prod.fst).Nodup) : getEntry k (delEntry k l) = none := by
  induction l with
  | nil => rfl
  | cons hd tl ih =>
    simp only [List.map_cons, List.nodup_cons] at h
    by_cases hk : hd.1 = k
    · simp only [delEntry, hk, if_pos]
      exact getEntry_eq_none_of_not_mem (hk ▸ h.1)
    · simp [delEntry, getEntry, hk, ih h.2]

theorem getField_append (k : String) (l1 l2 : Obj) :
    getField k (l1 ++ l2) =
      (match getField k l1 with
       | some v => some v
       | none => getField k l2) := by
  induction l1 with
  | nil => simp [getField]
  | cons hd tl ih =>
    by_cases h : hd.1 = k
    · simp [getField, h]
    · simpa [getField, h] using ih

theorem getField_overrideMap (k : String) (r localObj : Obj) :
    getField k (r.map fun kv => ((getField kv.1 localObj).elim kv fun v => (kv.1, v))) =
      (match getField k r with
       | some w => some ((getField k localObj).getD w)
       | none => none) := by
  induction r with
  | nil => simp [getField]
  | cons hd tl ih =>
    by_cases h : hd.1 = k
    · subst h
      cases hl : getField hd.1 localObj <;>
        simp [getField, hl, Option.elim, Option.getD]
    · cases hl : getField hd.1 localObj <;>
        simpa [getField, hl, Option.elim, h] using ih

theorem getField_filter_of_none {k : String} {r : Obj} (localObj : Obj)
    (h : getField k r = none) :
    getField k (localObj.filter fun kv => (getField kv.1 r).isNone) = getField k localObj := by
  induction localObj with
  | nil => rfl
  | cons hd tl ih =>
    by_cases hk : hd.1 = k
    · subst hk
      simp [List.filter_cons, h, getField]
    · cases hr : (getField hd.1 r).isNone <;>
        simp [List.filter_cons, hr, getField, hk, ih]

theorem getField_filter_of_some {k : String} {r : Obj} (localObj : Obj) {w : Int}
    (h : getField k r = some w) :
    getField k (localObj.filter fun kv => (getField kv.1 r).isNone) = none := by
  induction localObj with
  | nil => rfl
  | cons hd tl ih =>
    by_cases hk : hd.1 = k
    · subst hk
      simp [List.filter_cons, h, ih]
    · cases hr : (getField hd.1 r).isNone <;>
        simp [List.filter_cons, hr, getField, hk, ih]

/-- Field-level reading of the JS spread `{...remote, ...local}`: a field is
looked up in the local payload first, then in the remote data. -/
theorem getField_spreadMerge (k : String) (remote localObj : Obj) :
    getField k (spreadMerge remote localObj) =
      (match getField k localObj with
       | some v => some v
       | none => getField k remote) := by
  unfold spreadMerge
  rw [getField_append, getField_overrideMap]
  cases hr : getField k remote with
  | none =>
    rw [getField_filter_of_none localObj hr]
    cases getField k localObj <;> simp
  | some w =>
    cases hl : getField k localObj with
    | none => simp [Option.getD]
    | some v => simp [Option.getD]

/-! ## Claim theorems: the optimistic update manager -/

/-- C9: calling `resolveConflict` with a conflictId that is missing from the
conflict map is a complete no-op: the state — ledger, conflicts, notification
counters and applied-data log — is returned unchanged, and nothing throws. -/
theorem C9_missing_conflict_noop (s : ManagerState) (conflictId : String)
    (resolution : ConflictResolutionStrategy)
    (h : getEntry conflictId s.conflicts = none) :
    resolveConflict s conflictId resolution = s := by
  simp [resolveConflict, h]

/-- Witness for C9 at a concrete state and missing id. -/
theorem C9_witness :
    resolveConflict sampleState "c9" { strategy := StrategyKind.lastWriterWins }
      = sampleState :=
  C9_missing_conflict_noop sampleState "c9" _ rfl

/-- C10: under the `version-based` strategy, when the local and remote
versions are equal (each read with a default of 0 when missing), the remote
data is chosen in full as the resolved payload. -/
theorem C10_version_tie_remote_wins (s : ManagerState) (conflictId : String)
    (c : Conflict) (resolution : ConflictResolutionStrategy)
    (hc : getEntry conflictId s.conflicts = some c)
    (hstrat : resolution.strategy = StrategyKind.versionBased)
    (hver : resolution.version.getD 0 = (getField "version" c.remoteData).getD 0) :
    resolveConflict s conflictId resolution =
      finishResolve s conflictId c c.remoteData ∧
    (resolveConflict s conflictId resolution).applied =
      s.applied ++ [(c.localUpdate.collection, c.remoteData)] := by
  have h1 : resolveConflict s conflictId resolution =
      finishResolve s conflictId c c.remoteData := by
    simp [resolveConflict, hc, hstrat, hver, lt_irrefl]
  exact ⟨h1, by rw [h1]; rfl⟩

/-- Witness for C10: both versions present and equal (2 = 2), and both
versions missing (0 = 0). -/
theorem C10_witness :
    (resolveConflict sampleState "c2"
        { strategy := StrategyKind.versionBased, version := some 2 }).applied =
      [(sampleConflict2.localUpdate.collection, sampleConflict2.remoteData)] :=
  (C10_version_tie_remote_wins sampleState "c2" sampleConflict2
      { strategy := StrategyKind.versionBased, version := some 2 }
      rfl rfl rfl).2

/-- C8: for an existing conflict, `resolveConflict` computes the resolved
data by the chosen strategy — `last-writer-wins` takes the local payload
unconditionally; `merge` takes the spread `{...remote, ...local}` (local
fields override remote ones, field by field) unless a custom merge function
is supplied, whose value on (local, remote) is then used verbatim; and
`version-based` compares `resolution.version || 0` against
`remoteData.version || 0`, the strictly higher side winning with its full
payload. -/
theorem C8_resolution_strategies (s : ManagerState) (conflictId : String)
    (c : Conflict) (resolution : ConflictResolutionStrategy)
    (hc : getEntry conflictId s.conflicts = some c) :
    (resolution.strategy = StrategyKind.lastWriterWins →
      resolveConflict s conflictId resolution =
        finishResolve s conflictId c c.localUpdate.data) ∧
    (resolution.strategy = StrategyKind.merge → resolution.mergeFunction = none →
      resolveConflict s conflictId resolution =
        finishResolve s conflictId c (spreadMerge c.remoteData c.localUpdate.data) ∧
      ∀ k, getField k (spreadMerge c.remoteData c.localUpdate.data) =
        (match getField k c.localUpdate.data with
         | some v => some v
         | none => getField k c.remoteData)) ∧
    (∀ f : Obj → Obj → Obj,
      resolution.strategy = StrategyKind.merge → resolution.mergeFunction = some f →
      resolveConflict s conflictId resolution =
        finishResolve s conflictId c (f c.localUpdate.data c.remoteData)) ∧
    (resolution.strategy = StrategyKind.versionBased →
      resolution.version.getD 0 > (getField "version" c.remoteData).getD 0 →
      resolveConflict s conflictId resolution =
        finishResolve s conflictId c c.localUpdate.data) ∧
    (resolution.strategy = StrategyKind.versionBased →
      resolution.version.getD 0 < (getField "version" c.remoteData).getD 0 →
      resolveConflict s conflictId resolution =
        finishResolve s conflictId c c.remoteData) := by
  refine ⟨fun h => ?_, fun h hmf => ⟨?_, fun k => getField_spreadMerge k _ _⟩,
    fun f h hmf => ?_, fun h hv => ?_, fun h hv => ?_⟩
  · simp [resolveConflict, hc, h]
  · simp [resolveConflict, hc, h, hmf]
  · simp [resolveConflict, hc, h, hmf]
  · simp [resolveConflict, hc, h, hv]
  · simp [resolveConflict, hc, h, asymm hv]

/-- Witness for C8: last-writer-wins on a concrete conflict, and the two
version-based cases of §8 — local version 2 against remote version 1 (local
payload wins in full) and local version 1 against remote version 2 (remote
payload wins in full). -/
theorem C8_witness :
    resolveConflict sampleState "c1" { strategy := StrategyKind.lastWriterWins } =
      finishResolve sampleState "c1" sampleConflict sampleConflict.localUpdate.data ∧
    resolveConflict sampleState "c1"
        { strategy := StrategyKind.versionBased, version := some 2 } =
      finishResolve sampleState "c1" sampleConflict sampleConflict.localUpdate.data ∧
    resolveConflict sampleState "c2"
        { strategy := StrategyKind.versionBased, version := some 1 } =
      finishResolve sampleState "c2" sampleConflict2 sampleConflict2.remoteData :=
  ⟨(C8_resolution_strategies sampleState "c1" sampleConflict
      { strategy := StrategyKind.lastWriterWins } rfl).1 rfl,
   (C8_resolution_strategies sampleState "c1" sampleConflict
      { strategy := StrategyKind.versionBased, version := some 2 } rfl).2.2.2.1 rfl
      (by decide),
   (C8_resolution_strategies sampleState "c2" sampleConflict2
      { strategy := StrategyKind.versionBased, version := some 1 } rfl).2.2.2.2 rfl
      (by decide)⟩

/-- C7: (a) for an update id in the ledger, `resolveUpdate(id, true)` deletes
the ledger entry and leaves the conflicts untouched; (b) so does
`resolveUpdate(id, false)` without server data (the update is dropped);
(c) from a fresh manager, `applyUpdate` followed by
`resolveUpdate(id, false, serverData)` produces exactly one `Conflict`
referencing that update in the conflict map, and resolving it with
`last-writer-wins` applies the local payload as the resolved data and leaves
both the conflict set and the ledger empty. -/
theorem C7_resolve_update_lifecycle :
    (∀ (s : ManagerState) (updateId : String) (u : OptimisticUpdate) (d : Option Obj)
        (conflictId : String) (now : Int),
      getEntry updateId s.updates = some u →
        (resolveUpdate s updateId true d conflictId now).updates
            = delEntry updateId s.updates ∧
        (resolveUpdate s updateId true d conflictId now).conflicts = s.conflicts) ∧
    (∀ (s : ManagerState) (updateId : String) (u : OptimisticUpdate)
        (conflictId : String) (now : Int),
      getEntry updateId s.updates = some u →
        (resolveUpdate s updateId false none conflictId now).updates
            = delEntry updateId s.updates ∧
        (resolveUpdate s updateId false none conflictId now).conflicts = s.conflicts) ∧
    (∀ (u : OptimisticUpdate) (updateId : String) (t1 : Int) (d : Obj)
        (conflictId : String) (t2 : Int),
      u.conflictResolution = none →
        (conflictScenarioState u updateId t1 d conflictId t2).conflicts =
          [(conflictId,
            { id := conflictId,
              localUpdate := { u with id := updateId, timestamp := t1 },
              remoteData := d, resolution := Resolution.pending, timestamp := t2 })] ∧
        (resolveConflict (conflictScenarioState u updateId t1 d conflictId t2) conflictId
            { strategy := StrategyKind.lastWriterWins }).applied
          = [(u.collection, u.data)] ∧
        (resolveConflict (conflictScenarioState u updateId t1 d conflictId t2) conflictId
            { strategy := StrategyKind.lastWriterWins }).updates = [] ∧
        (resolveConflict (conflictScenarioState u updateId t1 d conflictId t2) conflictId
            { strategy := StrategyKind.lastWriterWins }).conflicts = []) := by
  refine ⟨fun s updateId u d conflictId now hu => ?_,
          fun s updateId u conflictId now hu => ?_,
          fun u updateId t1 d conflictId t2 hstrat => ?_⟩
  · constructor <;> simp [resolveUpdate, hu]
  · constructor <;> simp [resolveUpdate, hu]
  · have hscen : conflictScenarioState u updateId t1 d conflictId t2 =
        { updates := [(updateId, { u with id := updateId, timestamp := t1 })],
          conflicts := [(conflictId,
            { id := conflictId,
              localUpdate := { u with id := updateId, timestamp := t1 },
              remoteData := d, resolution := Resolution.pending, timestamp := t2 })],
          notifyCount := 2, conflictNotifyCount := 1, applied := [] } := by
      simp [conflictScenarioState, applyUpdate, resolveUpdate, getEntry, setEntry,
        handleConflict, hstrat, initState]
    refine ⟨by rw [hscen], ?_, ?_, ?_⟩ <;>
      rw [hscen] <;>
      simp [resolveConflict, getEntry, finishResolve, delEntry]

/-- Witness for C7 at concrete data: a successful confirmation deletes the
ledger entry, and the concrete §8 scenario ends with an empty ledger. -/
theorem C7_witness :
    (resolveUpdate sampleState "u1" true none "cX" 3).updates
        = delEntry "u1" sampleState.updates ∧
    (resolveConflict (conflictScenarioState sampleUpdate "u9" 0 [("aqi", 55)] "c9" 1) "c9"
        { strategy := StrategyKind.lastWriterWins }).updates = [] :=
  ⟨(C7_resolve_update_lifecycle.1 sampleState "u1" sampleUpdate none "cX" 3 rfl).1,
   (C7_resolve_update_lifecycle.2.2 sampleUpdate "u9" 0 [("aqi", 55)] "c9" 1 rfl).2.2.1⟩

/-- C1 counterexample: the state reached from a fresh manager by
`applyUpdate` (id `"u1"`) followed by `resolveUpdate("u1", false, serverData)`
holds the update in the pending-updates map AND in a conflict referencing it —
refuting "never in both" and "must no longer be in the pending-updates map". -/
theorem C1_counterexample :
    (getEntry "u1"
        (execOps initState
          [ManagerOp.apply "u1" 0 sampleUpdate,
           ManagerOp.resolve "u1" false (some [("aqi", 55)]) "c1" 1]).updates).isSome
      = true ∧
    ((execOps initState
          [ManagerOp.apply "u1" 0 sampleUpdate,
           ManagerOp.resolve "u1" false (some [("aqi", 55)]) "c1" 1]).conflicts.map
        fun kc => kc.2.localUpdate.id) = ["u1"] := by
  exact ⟨rfl, rfl⟩

/-- C1 (amended): after `resolveUpdate(id, false, serverData)` creates a
`Conflict` for an update that names no auto-resolution strategy, the update
remains in the pending-updates map as well as in the conflict; the two are
removed together only when `resolveConflict` resolves that conflict with a
non-manual strategy (here: last-writer-wins). -/
theorem C1_update_in_both_until_conflict_resolved
    (s : ManagerState) (updateId : String) (u : OptimisticUpdate) (d : Obj)
    (conflictId : String) (now : Int)
    (hu : getEntry updateId s.updates = some u)
    (hid : u.id = updateId)
    (hstrat : u.conflictResolution = none)
    (hnu : (s.updates.map Prod.fst).Nodup)
    (hnc : (s.conflicts.map Prod.fst).Nodup) :
    getEntry updateId (resolveUpdate s updateId false (some d) conflictId now).updates
        = some u ∧
    getEntry conflictId (resolveUpdate s updateId false (some d) conflictId now).conflicts
        = some { id := conflictId, localUpdate := u, remoteData := d,
                 resolution := Resolution.pending, timestamp := now } ∧
    getEntry updateId
        (resolveConflict (resolveUpdate s updateId false (some d) conflictId now)
          conflictId { strategy := StrategyKind.lastWriterWins }).updates = none ∧
    getEntry conflictId
        (resolveConflict (resolveUpdate s updateId false (some d) conflictId now)
          conflictId { strategy := StrategyKind.lastWriterWins }).conflicts = none := by
  have hs' : resolveUpdate s updateId false (some d) conflictId now =
      { s with
          conflicts := setEntry conflictId
            { id := conflictId, localUpdate := u, remoteData := d,
              resolution := Resolution.pending, timestamp := now } s.conflicts,
          conflictNotifyCount := s.conflictNotifyCount + 1,
          notifyCount := s.notifyCount + 1 } := by
    simp [resolveUpdate, hu, handleConflict, hstrat]
  have hcget : getEntry conflictId
      (resolveUpdate s updateId false (some d) conflictId now).conflicts =
      some { id := conflictId, localUpdate := u, remoteData := d,
             resolution := Resolution.pending, timestamp := now } := by
    rw [hs']
    exact getEntry_setEntry_self _ _ _
  have hrc : resolveConflict (resolveUpdate s updateId false (some d) conflictId now)
      conflictId { strategy := StrategyKind.lastWriterWins } =
      finishResolve (resolveUpdate s updateId false (some d) conflictId now) conflictId
        { id := conflictId, localUpdate := u, remoteData := d,
          resolution := Resolution.pending, timestamp := now } u.data := by
    simp [resolveConflict, hcget]
  refine ⟨by rw [hs']; exact hu, hcget, ?_, ?_⟩
  · rw [hrc]
    show getEntry updateId (delEntry u.id
      (resolveUpdate s updateId false (some d) conflictId now).updates) = none
    rw [hs', hid]
    exact getEntry_delEntry_self hnu
  · rw [hrc]
    show getEntry conflictId (delEntry conflictId
      (resolveUpdate s updateId false (some d) conflictId now).conflicts) = none
    rw [hs']
    exact getEntry_delEntry_self (keys_nodup_setEntry hnc)

/-- Witness for C1 (amended) at concrete data. -/
theorem C1_witness :
    getEntry "u1" (resolveUpdate sampleState "u1" false (some [("pm25", 12)]) "c9" 5).updates
      = some sampleUpdate :=
  (C1_update_in_both_until_conflict_resolved sampleState "u1" sampleUpdate
      [("pm25", 12)] "c9" 5 rfl rfl rfl (by decide) (by decide)).1

/-! ## Supporting lemmas for the numeric theorems -/

theorem effectiveUncertainty_of_ne {u : ℝ} (h : u ≠ 0) : effectiveUncertainty u = u :=
  if_neg h

theorem effectiveUncertainty_zero : effectiveUncertainty 0 = 25 :=
  if_pos rfl

theorem seriesStd_nonneg (data : List ℝ) : 0 ≤ seriesStd data :=
  Real.sqrt_nonneg _

theorem ensembleUncertainty_nonneg (ms : List ModelPrediction) :
    0 ≤ ensembleUncertainty ms :=
  Real.sqrt_nonneg _

theorem weightOf_effective_pos {u : ℝ} (h : 0 ≤ u) :
    0 < weightOf (effectiveUncertainty u) := by
  have h50 : 0 < 1 + effectiveUncertainty u / 50 := by
    unfold effectiveUncertainty
    split <;> nlinarith
  unfold weightOf
  positivity

theorem totalWeight_pos {ms : List ModelPrediction} (hne : ms ≠ [])
    (hu : ∀ m ∈ ms, 0 ≤ m.uncertainty) : 0 < totalWeight ms := by
  unfold totalWeight
  apply List.sum_pos
  · intro x hx
    obtain ⟨m, hm, rfl⟩ := List.mem_map.1 hx
    exact weightOf_effective_pos (hu m hm)
  · simpa using hne

/-! ## Claim theorems: the ensemble combiner -/

/-- C2 counterexample: called on the empty prediction list, the combiner
returns a result (`Except.ok`) — it does not raise `InvalidInput`. -/
theorem C2_counterexample :
    combine ([] : List ModelPrediction)
        = Except.ok (computeEnsemblePrediction []) ∧
    combine ([] : List ModelPrediction) ≠ Except.error EnsembleError.invalidInput :=
  ⟨rfl, by simp [combine]⟩

/-- C2 (amended): the combiner has no failure path at all — on every input,
the empty list included, it returns an `EnsembleResult` (in JS the empty-list
result is NaN-valued, from the 0/0 weighted mean) and never raises
`InvalidInput`. -/
theorem C2_combiner_never_fails (ms : List ModelPrediction) :
    combine ms = Except.ok (computeEnsemblePrediction ms) ∧
    ∀ e : EnsembleError, combine ms ≠ Except.error e :=
  ⟨rfl, fun _ h => by simp [combine] at h⟩

/-- C3 counterexample: on the single prediction −10 with (non-negative)
uncertainty 10 the interval's floored lower bound is 0, strictly above the
predicted value −10 — `lo ≤ predicted` fails as soon as the weighted mean is
negative. -/
theorem C3_counterexample :
    (0 : ℝ) ≤ (10 : ℝ) ∧
    (computeEnsemblePrediction
        [{ name := "m", prediction := -10, uncertainty := 10 }]).prediction <
      (computeEnsemblePrediction
        [{ name := "m", prediction := -10, uncertainty := 10 }]).confidenceInterval.1 := by
  have heff : effectiveUncertainty 10 = 10 := effectiveUncertainty_of_ne (by norm_num)
  have hpred : ensemblePrediction
      [{ name := "m", prediction := -10, uncertainty := 10 }] = -10 := by
    simp [ensemblePrediction, weightedSum, totalWeight, heff, weightOf]
    norm_num
  have hvar : meanVariance
      [{ name := "m", prediction := -10, uncertainty := 10 }] = 0 := by
    simp [meanVariance, hpred]
  have hunc : ensembleUncertainty
      [{ name := "m", prediction := -10, uncertainty := 10 }] = 0 := by
    rw [ensembleUncertainty, hvar, Real.sqrt_zero]
  refine ⟨by norm_num, ?_⟩
  simp only [computeEnsemblePrediction, hpred, hunc]
  norm_num

/-- C3 (amended): for every non-empty list of predictions with non-negative
uncertainties AND non-negative predicted values, the combiner's interval
satisfies `lo ≤ predicted ≤ hi`, its confidence lies in `[0.1, 0.95]`, and
the interval is `[max(0, mean − 1.96·u), mean + 1.96·u]`. -/
theorem C3_interval_and_confidence_bounds (ms : List ModelPrediction)
    (hne : ms ≠ [])
    (hu : ∀ m ∈ ms, 0 ≤ m.uncertainty)
    (hp : ∀ m ∈ ms, 0 ≤ m.prediction) :
    (computeEnsemblePrediction ms).confidenceInterval.1
        ≤ (computeEnsemblePrediction ms).prediction ∧
    (computeEnsemblePrediction ms).prediction
        ≤ (computeEnsemblePrediction ms).confidenceInterval.2 ∧
    0.1 ≤ (computeEnsemblePrediction ms).confidence ∧
    (computeEnsemblePrediction ms).confidence ≤ 0.95 ∧
    (computeEnsemblePrediction ms).confidenceInterval =
      (max 0 ((computeEnsemblePrediction ms).prediction
          - 1.96 * (computeEnsemblePrediction ms).uncertainty),
       (computeEnsemblePrediction ms).prediction
          + 1.96 * (computeEnsemblePrediction ms).uncertainty) := by
  have htw : 0 < totalWeight ms := totalWeight_pos hne hu
  have hws : 0 ≤ weightedSum ms := by
    unfold weightedSum
    apply List.sum_nonneg
    intro x hx
    obtain ⟨m, hm, rfl⟩ := List.mem_map.1 hx
    exact mul_nonneg (hp m hm) (weightOf_effective_pos (hu m hm)).le
  have hpred : 0 ≤ ensemblePrediction ms := div_nonneg hws htw.le
  have hunc : 0 ≤ ensembleUncertainty ms := ensembleUncertainty_nonneg ms
  simp only [computeEnsemblePrediction]
  refine ⟨?_, ?_, ?_, ?_, ?_⟩
  · exact max_le hpred (by nlinarith)
  · nlinarith
  · exact le_max_left _ _
  · exact max_le (by norm_num) (min_le_left _ _)
  · trivial

/-- Witness for C3 (amended) on a concrete one-model list. -/
theorem C3_witness :
    0.1 ≤ (computeEnsemblePrediction
      [{ name := "lstm", prediction := 100, uncertainty := 10 }]).confidence :=
  (C3_interval_and_confidence_bounds
      [{ name := "lstm", prediction := 100, uncertainty := 10 }]
      (by simp)
      (by intro m hm; rw [List.mem_singleton] at hm; subst hm; norm_num)
      (by intro m hm; rw [List.mem_singleton] at hm; subst hm; norm_num)).2.2.1

/-- C4 counterexample: a model reporting uncertainty 0 is weighted as if its
uncertainty were 25 (`modelUncertainties[name] || 25` treats 0 as missing),
so the output differs from the spec's Σ(p·w)/Σ(w) with w = 1/(1 + u/50). -/
theorem C4_counterexample :
    (computeEnsemblePrediction
        [{ name := "a", prediction := 100, uncertainty := 0 },
         { name := "b", prediction := 0, uncertainty := 50 }]).prediction ≠
      specWeightedMean
        [{ name := "a", prediction := 100, uncertainty := 0 },
         { name := "b", prediction := 0, uncertainty := 50 }] := by
  have heff0 : effectiveUncertainty 0 = 25 := effectiveUncertainty_zero
  have heff50 : effectiveUncertainty 50 = 50 := effectiveUncertainty_of_ne (by norm_num)
  simp only [computeEnsemblePrediction, ensemblePrediction, weightedSum, totalWeight,
    specWeightedMean, weightOf, heff0, heff50, List.map_cons, List.map_nil,
    List.sum_cons, List.sum_nil]
  norm_num

/-- C4 (amended): the combiner's output equals Σ(p·w)/Σ(w) with
w = 1/(1 + u'/50), where u' is the model's reported uncertainty except that a
reported 0 (like a missing entry) is replaced by 25; on the §8 example
(lstm 100 u=10, transformer 110 u=20, cnn 90 u=5) the mean lies strictly
between 90 and 110 and strictly below the unweighted average 100. -/
theorem C4_weighted_mean_formula :
    (∀ ms : List ModelPrediction,
      (computeEnsemblePrediction ms).prediction =
        (ms.map fun m => m.prediction *
            (1 / (1 + (if m.uncertainty = 0 then 25 else m.uncertainty) / 50))).sum /
        (ms.map fun m =>
            1 / (1 + (if m.uncertainty = 0 then 25 else m.uncertainty) / 50)).sum) ∧
    90 < (computeEnsemblePrediction exampleModels).prediction ∧
    (computeEnsemblePrediction exampleModels).prediction < 110 ∧
    (computeEnsemblePrediction exampleModels).prediction < 100 := by
  have hex : (computeEnsemblePrediction exampleModels).prediction = 112600 / 1135 := by
    have h10 : effectiveUncertainty 10 = 10 := effectiveUncertainty_of_ne (by norm_num)
    have h20 : effectiveUncertainty 20 = 20 := effectiveUncertainty_of_ne (by norm_num)
    have h5 : effectiveUncertainty 5 = 5 := effectiveUncertainty_of_ne (by norm_num)
    simp only [computeEnsemblePrediction, ensemblePrediction, weightedSum, totalWeight,
      weightOf, exampleModels, h10, h20, h5, List.map_cons, List.map_nil,
      List.sum_cons, List.sum_nil]
    norm_num
  refine ⟨fun ms => rfl, ?_, ?_, ?_⟩ <;> rw [hex] <;> norm_num

/-! ## Claim theorems: the anomaly scorer -/

/-- C5: every record `detectAnomaliesInData` emits carries the z-score
|value − mean| / std of the population statistics of the full series; the
point is flagged iff that z-score exceeds 3 − sensitivity; a flagged point's
severity is 'high' exactly when z > 4 and 'medium' otherwise; a non-flagged
point's severity is 'low'; and when std = 0 (e.g. a constant series) no point
is flagged, for any sensitivity in [0, 1]. -/
theorem C5_anomaly_flagging (data : List ℝ) (sensitivity : ℝ)
    (h0 : 0 ≤ sensitivity) (h1 : sensitivity ≤ 1)
    (p : AnomalyPoint) (hp : p ∈ detectAnomaliesInData data sensitivity) :
    (p.zScore = |p.value - seriesMean data| / seriesStd data) ∧
    (p.isAnomaly = true ↔ p.zScore > 3 - sensitivity) ∧
    (p.isAnomaly = true → p.severity = if p.zScore > 4 then "high" else "medium") ∧
    (p.isAnomaly = false → p.severity = "low") ∧
    (seriesStd data = 0 → p.isAnomaly = false) := by
  unfold detectAnomaliesInData at hp
  obtain ⟨iv, hmem, rfl⟩ := List.mem_map.1 hp
  simp only
  have habs : |(iv.2 - seriesMean data) / seriesStd data|
      = |iv.2 - seriesMean data| / seriesStd data := by
    rw [abs_div, abs_of_nonneg (seriesStd_nonneg data)]
  refine ⟨habs, by simp [decide_eq_true_eq], ?_, ?_, ?_⟩
  · intro hA
    rw [decide_eq_true_eq] at hA
    rw [if_pos hA]
  · intro hA
    rw [decide_eq_false_iff_not] at hA
    rw [if_neg hA]
  · intro hstd
    rw [decide_eq_false_iff_not]
    rw [hstd, div_zero, abs_zero]
    intro hcon
    nlinarith

/-- Witness for C5 on the one-point series `[0]` (std = 0) at
sensitivity 0.8. -/
theorem C5_witness :
    samplePoint.zScore = |samplePoint.value - seriesMean [0]| / seriesStd [0] :=
  (C5_anomaly_flagging [0] 0.8 (by norm_num) (by norm_num) samplePoint
    (List.mem_map.2 ⟨(0, 0), by simp [List.enum], rfl⟩)).1

/-! ## Claim theorems: the per-model fallback of the orchestrator -/

/-- C6 counterexample: the attributes the engine records for a failed model
are exactly {prediction, uncertainty} — there is no `confidence` component —
so the substituted per-model fallback is not the
`{prediction, confidence: 0.5, uncertainty: 25}` record the claim states. -/
theorem C6_counterexample :
    (fallbackModelFields 100).map Prod.fst
        ≠ (specFallbackModelFields 100).map Prod.fst ∧
    "confidence" ∉ (fallbackModelFields 100).map Prod.fst ∧
    "confidence" ∈ (specFallbackModelFields 100).map Prod.fst := by
  refine ⟨?_, ?_, ?_⟩ <;> simp [fallbackModelFields, specFallbackModelFields]

/-- C6 (amended): when an individual model's prediction step fails, the
engine substitutes `prediction = input.currentAqi` and `uncertainty = 25` for
that model (per-model records carry no confidence; the
`{prediction, confidence: 0.5, uncertainty: 25}` shape exists only as the
worker's whole-result fallback `createFallbackResult`), and an ensemble
result is still produced — a partial model failure never aborts the batch. -/
theorem C6_model_fallback :
    (∀ (currentAqi : ℝ) (pre post : List ModelOutcome) (o : ModelOutcome),
      o.outcome = none →
        collectModelData currentAqi (pre ++ o :: post) =
          collectModelData currentAqi pre ++
            { name := o.name, prediction := currentAqi, uncertainty := 25 } ::
              collectModelData currentAqi post) ∧
    (∀ (currentAqi : ℝ) (outcomes : List ModelOutcome),
      enginePredict currentAqi outcomes =
        Except.ok (computeEnsemblePrediction (collectModelData currentAqi outcomes))) ∧
    (∀ currentAqi : ℝ,
      createFallbackResult currentAqi =
        { predictedAqi := currentAqi, confidence := 0.5, uncertainty := 25,
          confidenceInterval := (currentAqi - 25, currentAqi + 25) }) := by
  refine ⟨fun cv pre post o ho => ?_, fun cv outcomes => rfl, fun cv => rfl⟩
  simp [collectModelData, ho]

/-- Witness for C6 (amended): the cnn model fails, its slot becomes
(currentAqi, 25), the other model is untouched. -/
theorem C6_witness :
    collectModelData 80
        [{ name := "lstm", outcome := some (95, 10) }, { name := "cnn", outcome := none }] =
      collectModelData 80 [{ name := "lstm", outcome := some (95, 10) }] ++
        ({ name := "cnn", prediction := 80, uncertainty := 25 } : ModelPrediction) ::
          collectModelData 80 [] :=
  C6_model_fallback.1 80 [{ name := "lstm", outcome := some (95, 10) }] []
    { name := "cnn", outcome := none } rfl

end AuraCast
